import Mathlib

/-!
Verification development for the natgeo-fetch repository (FetchNatGeo.py).

The Python source is shallowly embedded below.  Pure helpers become Lean
functions; code that talks to the browser (playwright), the image codec
(PIL) or the PDF writer is modelled by explicit oracles describing the
outcome of each external interaction, while the control flow, arithmetic
and string formatting of the Python are translated faithfully.  A raised
Python exception is an `Except.error`; Python `None` is `Option.none`.
-/

set_option autoImplicit false

namespace NatGeo

/-- Error values standing for the distinct Python exception sites. -/
inductive Err where
  | parseErr
  | assertErr
  | decodeErr
  | zoomErr
  | authErr
  | issueErr
  deriving DecidableEq, Repr

instance exceptDecEq {ε α : Type} [DecidableEq ε] [DecidableEq α] :
    DecidableEq (Except ε α) := fun x y =>
  match x, y with
  | .error a, .error b =>
    match decEq a b with
    | isTrue h => isTrue (by rw [h])
    | isFalse h => isFalse (fun hc => by cases hc; exact h rfl)
  | .ok a, .ok b =>
    match decEq a b with
    | isTrue h => isTrue (by rw [h])
    | isFalse h => isFalse (fun hc => by cases hc; exact h rfl)
  | .error _, .ok _ => isFalse (fun hc => by cases hc)
  | .ok _, .error _ => isFalse (fun hc => by cases hc)

/-- Embedding of the `Config` dataclass (FetchNatGeo.py lines 38-51). -/
structure Config where
  email : String
  password : String
  output_path : String
  cookie_path : String
  timeout : Nat
  retries : Nat
  retry_wait : Nat
  vp_width : Nat
  vp_height : Nat
  img_format : String
  img_quality : Nat

/-- Concrete configuration used for witnesses and counterexamples. -/
def sampleConfig : Config :=
  ⟨"user@example.com", "hunter2x", "out", "cookies.json",
   1000, 3, 50, 1280, 800, "jpeg", 80⟩

/-- Splitting of a character list at every occurrence of a separator,
the semantics of Python `str.split(sep)` for a one-character `sep`. -/
def pySplitChar (sep : Char) : List Char → List (List Char)
  | [] => [[]]
  | c :: rest =>
    match pySplitChar sep rest with
    | [] => if c = sep then [[], []] else [[c]]
    | h :: t => if c = sep then [] :: h :: t else (c :: h) :: t

/-- Python `s.split(sep)` for a one-character separator, on strings. -/
def pySplit (s : String) (sep : Char) : List String :=
  (pySplitChar sep s.toList).map (fun cs => String.mk cs)

/-- Accumulating decimal parse of a digit run; any non-digit fails. -/
def digitsToNat (acc : Nat) : List Char → Option Nat
  | [] => some acc
  | c :: cs => if c.isDigit then digitsToNat (acc * 10 + (c.toNat - 48)) cs else none

/-- Python `int(s)` on decimal strings: an optional sign followed by at
least one digit; anything else raises `ValueError` (here: `none`). -/
def pyInt (s : String) : Option Int :=
  match s.toList with
  | [] => none
  | '-' :: rest =>
    match rest with
    | [] => none
    | _ => (digitsToNat 0 rest).map (fun n => -(n : Int))
  | '+' :: rest =>
    match rest with
    | [] => none
    | _ => (digitsToNat 0 rest).map (fun n => (n : Int))
  | cs => (digitsToNat 0 cs).map (fun n => (n : Int))

/-- Embedding of `_format_date` (lines 71-85).  Splits an MM-YYYY string,
subtracts 1 from the month, and runs the two Python asserts in source
order; a failing assert is `Err.assertErr`, a `ValueError` from unpacking
or `int()` is `Err.parseErr`.  Returns `(year, month)` like the source. -/
def format_date (s : String) : Except Err (Int × Int) :=
  match pySplit s '-' with
  | [mStr, yStr] =>
    match pyInt mStr, pyInt yStr with
    | some m, some y =>
      let month : Int := m - 1
      if 0 ≤ month ∧ month < 12 then
        if 1887 < y ∧ y < 2100 then
          Except.ok (y, month)
        else Except.error Err.assertErr
      else Except.error Err.assertErr
    | _, _ => Except.error Err.parseErr
  | _ => Except.error Err.parseErr

/-- Embedding of `_get_timerange` (lines 391-411): parse both dates, run
the two asserts `year_start <= year_end` and `month_start <= month_end`
in source order, then enumerate
`((month_start + i) % 12, year_start + (month_start + i) // 12)`
for `i` in `range(0, total_months + 1)`.  All quantities are nonnegative
at that point, so Lean integer division and remainder agree with
Python floor division. -/
def get_timerange (ds de : String) : Except Err (List (Int × Int)) := do
  let (year_start, month_start) ← format_date ds
  let (year_end, month_end) ← format_date de
  if year_start ≤ year_end then
    if month_start ≤ month_end then
      let total_months : Int := (year_end - year_start) * 12 + (month_end - month_start)
      Except.ok ((List.range (total_months + 1).toNat).map (fun i =>
        ((month_start + (i : Int)) % 12, year_start + (month_start + (i : Int)) / 12)))
    else Except.error Err.assertErr
  else Except.error Err.assertErr

/-- Python list slicing `xs[a:b]` for nonnegative bounds. -/
def pySlice {α : Type} (xs : List α) (a b : Nat) : List α :=
  (xs.drop a).take (b - a)

/-- Embedding of the shard computation in `fetch_natgeo` (lines 451-460):
`avg_size = len // n`, `remainder = len % n`, shard `i` is the slice
`timerange[i*avg_size + min(i, remainder) : (i+1)*avg_size + min(i+1, remainder)]`. -/
def partition {α : Type} (xs : List α) (n : Nat) : List (List α) :=
  let avg_size := xs.length / n
  let remainder := xs.length % n
  (List.range n).map (fun i =>
    pySlice xs (i * avg_size + min i remainder) ((i + 1) * avg_size + min (i + 1) remainder))

/-- Shard boundary `i*avg_size + min(i, remainder)` as a function of the
list length, the worker count and the shard index. -/
def bnd (L n i : Nat) : Nat :=
  i * (L / n) + min i (L % n)

/-- Decoded raster image: the view of an image bytes-object after
`PIL.Image.open`.  The codec itself is an external collaborator, so a
captured bytes-object is represented directly by its decoded raster;
`px x y` is the RGB value at column `x`, row `y`. -/
structure Img where
  width : Nat
  height : Nat
  px : Nat → Nat → Nat × Nat × Nat

/-- PIL `Image.new("RGB", (w, h))` with no colour argument: an opaque
canvas whose every pixel is the default fill 0, i.e. black. -/
def imageNew (w h : Nat) : Img :=
  ⟨w, h, fun _ _ => (0, 0, 0)⟩

/-- PIL `base.paste(im, (x0, y0))`: pixels of `im` are copied into the
rectangle with top-left corner `(x0, y0)`; pixels outside it keep the
base value. -/
def paste (base im : Img) (x0 y0 : Nat) : Img :=
  { base with px := (fun x y =>
      if x0 ≤ x ∧ x < x0 + im.width ∧ y0 ≤ y ∧ y < y0 + im.height then
        im.px (x - x0) (y - y0)
      else base.px x y) }

/-- PIL `Image.open(BytesIO(data))`: raises (here `Err.decodeErr`) when
`data` is Python `None` (an empty buffer), otherwise yields the raster. -/
def imageOpen : Option Img → Except Err Img
  | none => Except.error Err.decodeErr
  | some i => Except.ok i

/-- Embedding of `_combine_canvas_sidebyside` (lines 231-258): decode both
byte objects, allocate a fresh RGB canvas of width `left + right` and
height `max`, paste left at `(0, 0)` and right at `(left.width, 0)`, and
re-encode per the configured format/quality (the codec round-trip is the
identity on the raster in this model). -/
def combine_canvas_sidebyside (_config : Config)
    (img_left_data img_right_data : Option Img) : Except Err Img := do
  let img_left ← imageOpen img_left_data
  let img_right ← imageOpen img_right_data
  let new_width := img_left.width + img_right.width
  let new_height := max img_left.height img_right.height
  let new_img := imageNew new_width new_height
  let new_img := paste new_img img_left 0 0
  let new_img := paste new_img img_right img_left.width 0
  Except.ok new_img

/-- Embedding of the closure `__add_to_canvas` (lines 342-346): opens the
bytes-object (raising on `None`), sets the page size to the image size and
draws it, yielding one finished document page. -/
def add_to_canvas : Option Img → Except Err Img
  | none => Except.error Err.decodeErr
  | some i => Except.ok i

/-- Warning written by `tqdm.write` at line 362. -/
def skipCanvasMsg (canvas_id : Nat) : String :=
  "Skipping Canvas-ID " ++ toString canvas_id ++ " due to Error."

/-- Embedding of one iteration of the spread loop of `_download_article`
(lines 352-369), given the two captures: the `if left_data is None` branch
only logs (it does not `continue`), then the independent
`if right_data is None` test either adds the left bytes alone (progress 1)
or stitches both (progress 2).  Result: emitted pages, progress units,
logged warnings. -/
def download_article_pair_step (config : Config) (canvas_id : Nat)
    (left_data right_data : Option Img) :
    Except Err (List Img × Nat × List String) := do
  let warns := if left_data.isNone then [skipCanvasMsg canvas_id] else []
  if right_data.isNone then do
    let page ← add_to_canvas left_data
    Except.ok ([page], 1, warns)
  else do
    let combined ← combine_canvas_sidebyside config left_data right_data
    let page ← add_to_canvas (some combined)
    Except.ok ([page], 2, warns)

/-- Embedding of the document-assembly core of `_download_article`
(lines 316-373), given the cover capture (canvas id 1) and the stream of
spread captures: commit the cover as the first page (progress 1), then
fold the pair policy over the spreads.  Navigation, fullscreen and page
counting are external interactions that precede the captures. -/
def download_article (config : Config) (cover_data : Option Img)
    (spreads : List (Nat × Option Img × Option Img)) :
    Except Err (List Img × Nat) := do
  let coverPage ← add_to_canvas cover_data
  spreads.foldlM (fun acc s => do
    let (pages, progress, _warns) ← download_article_pair_step config s.1 s.2.1 s.2.2
    Except.ok (acc.1 ++ pages, acc.2 + progress)) ([coverPage], 1)

/-- Observable events of one run of the capture retry loop. -/
inductive CapEvent where
  | zoom
  | eval
  | sleep (ms : Nat)
  deriving DecidableEq, Repr

/-- Behaviour of the render surface during `_fetch_canvas_imagedata`:
whether the `_zoom_page` call of attempt `i` raises, and what the
`page.evaluate` + `base64.b64decode` step of attempt `i` yields (`none`
standing for any raised failure inside the `try`). -/
structure PageModel where
  zoomFails : Nat → Bool
  evalResult : Nat → Option Img

/-- Loop body of `_fetch_canvas_imagedata` (lines 289-313): attempt `i`
with `k` attempts remaining.  `_zoom_page` runs outside the `try`, so a
zoom failure propagates; a failure inside the `try` is swallowed, the
loop sleeps `retry_wait` and retries; exhausting attempts returns `None`. -/
def fetch_canvas_go (retry_wait : Nat) (pm : PageModel) :
    Nat → Nat → Except Err (Option Img) × List CapEvent
  | _, 0 => (Except.ok none, [])
  | i, k + 1 =>
    if pm.zoomFails i then (Except.error Err.zoomErr, [CapEvent.zoom])
    else
      match pm.evalResult i with
      | some b => (Except.ok (some b), [CapEvent.zoom, CapEvent.eval])
      | none =>
        let rest := fetch_canvas_go retry_wait pm (i + 1) k
        (rest.1, CapEvent.zoom :: CapEvent.eval :: CapEvent.sleep retry_wait :: rest.2)

/-- Embedding of `_fetch_canvas_imagedata` (lines 278-313): run the
attempt loop `config.retries` times from attempt 0. -/
def fetch_canvas_imagedata (config : Config) (pm : PageModel) :
    Except Err (Option Img) × List CapEvent :=
  fetch_canvas_go config.retry_wait pm 0 config.retries

/-- Event trace of `k` failed capture attempts separated by sleeps. -/
def failTrace (retry_wait : Nat) : Nat → List CapEvent
  | 0 => []
  | k + 1 => CapEvent.zoom :: CapEvent.eval :: CapEvent.sleep retry_wait :: failTrace retry_wait k

/-- Attempt loop of `_download_articel_retry` (lines 379-384): `used`
attempts already made, `k` remaining; `attempt i` is the outcome of the
`i`-th invocation of `_download_article` (the bare `except` swallows every
raised error).  Returns success flag and number of invocations made. -/
def retry_go (attempt : Nat → Except Err Unit) : Nat → Nat → Bool × Nat
  | used, 0 => (false, used)
  | used, k + 1 =>
    match attempt used with
    | Except.ok _ => (true, used + 1)
    | Except.error _ => retry_go attempt (used + 1) k

/-- Warning written by `tqdm.write` at line 386, months reported 1-based. -/
def skipIssueMsg (year month : Int) : String :=
  "Skipping " ++ toString (month + 1) ++ "/" ++ toString year ++ " due to Error!"

/-- Embedding of `_download_articel_retry` (lines 376-388): run the
attempt loop over `config.retries` attempts; if no attempt succeeded,
record the skip warning.  Result: success flag, invocation count,
recorded warnings — the wrapper itself never raises. -/
def download_articel_retry (retries : Nat) (year month : Int)
    (attempt : Nat → Except Err Unit) : Bool × Nat × List String :=
  let r := retry_go attempt 0 retries
  (r.1, r.2, if r.1 then [] else [skipIssueMsg year month])

/-- Embedding of the work loop of `_fetch_natgeo_range` (lines 432-433):
every `(month, year)` item of the shard is handed to the retry wrapper in
order; `oracle it i` is the outcome of attempt `i` of item `it`.  Each
entry of the result records the item, its success flag, its invocation
count and its warnings. -/
def fetch_natgeo_range (retries : Nat)
    (oracle : Int × Int → Nat → Except Err Unit) (timerange : List (Int × Int)) :
    List ((Int × Int) × Bool × Nat × List String) :=
  timerange.map (fun it => (it, download_articel_retry retries it.2 it.1 (oracle it)))

/-- Behaviour of the render surface during `_signin_save_cookies`: which
interactive sub-steps complete within their timeouts. -/
structure SigninOracle where
  clickOk : Bool
  alreadyIn : Bool
  emailOk : Bool
  passwordOk : Bool
  otpPromptReached : Bool
  otpOk : Bool
  finalOk : Bool

/-- Python `str(["*"] * n)`: the masked-password rendering printed by
`_signin_fill_password`. -/
def pyStrStarList (n : Nat) : String :=
  "[" ++ String.intercalate (", ") (List.replicate n "\x27*\x27") ++ "]"

/-- Print outputs of `_signin_fill_email` (lines 113-128): the e-mail line
is printed only when every interaction completed. -/
def signin_fill_email_logs (config : Config) (ok : Bool) : Bool × List String :=
  if ok then (true, ["Filled E-Mail: " ++ config.email]) else (false, [])

/-- Print outputs of `_signin_fill_password` (lines 131-146): only the
masked list, whose rendering depends on the password length alone, is
printed — and only when every interaction completed. -/
def signin_fill_password_logs (config : Config) (ok : Bool) : Bool × List String :=
  if ok then (true, ["Filled Password: " ++ pyStrStarList config.password.length])
  else (false, [])

/-- Print outputs of `_signin_fill_otp` (lines 149-173): the operator
prompt appears once the first input slot was filled; nothing credential
related is printed. -/
def signin_fill_otp_logs (promptReached ok : Bool) : Bool × List String :=
  (ok, if promptReached then ["Please provide 6-Digit OTP: "] else [])

/-- Embedding of the print/log behaviour of `_signin_save_cookies`
(lines 176-215): the sign-in button step, the short-circuit when the
archive root is already reached, then the email, password and one-time
code sub-steps, each gated on the previous state; finally the
authenticated-URL check that raises `Err.authErr` on failure. -/
def signin_save_cookies_logs (o : SigninOracle) (config : Config) :
    List String × Option Err :=
  let state0 := o.clickOk
  let state1 := if o.alreadyIn then false else state0
  let r2 := if state1 then signin_fill_email_logs config o.emailOk else (state1, [])
  let r3 := if r2.1 then signin_fill_password_logs config o.passwordOk else (r2.1, [])
  let r4 := if r3.1 then signin_fill_otp_logs o.otpPromptReached o.otpOk else (r3.1, [])
  (r2.2 ++ r3.2 ++ r4.2, if o.finalOk then none else some Err.authErr)

/-- Observable phases of `fetch_natgeo` (lines 438-472), in program
order: the sign-in browser session (launch, cookie load, interactive
sign-in), then date-range validation and partitioning, then one spawned
worker per shard. -/
inductive RunEvent where
  | browserLaunch
  | cookieLoad
  | signinFlow
  | workerSpawn (shard : List (Int × Int))
  | scrapeDone
  deriving DecidableEq, Repr

/-- Embedding of `fetch_natgeo` (lines 438-472) as an event trace: the
sign-in browsing block runs first; only then is `_get_timerange` called,
whose assertion failure propagates and aborts the run; on success the
timerange is partitioned and one worker is spawned per shard. -/
def fetch_natgeo_run (date_start date_end : String) (n_workers : Nat) :
    List RunEvent × Option Err :=
  let pre := [RunEvent.browserLaunch, RunEvent.cookieLoad, RunEvent.signinFlow]
  match get_timerange date_start date_end with
  | Except.error e => (pre, some e)
  | Except.ok timerange =>
    (pre ++ (partition timerange n_workers).map RunEvent.workerSpawn
         ++ [RunEvent.scrapeDone], none)

/-- Default of the `--date-range` argparse argument (lines 482-489). -/
def date_range_default : String := "01-2024--02-2025"

/-- Resolution of the `--date-range` argument: argparse substitutes the
default when the flag is omitted. -/
def resolve_date_range (arg : Option String) : String :=
  arg.getD date_range_default

/-- Splitting of a character list at every occurrence of the
two-character separator `--`, left to right and non-overlapping: the
semantics of Python `str.split("--")`. -/
def pySplitDashDash : List Char → List (List Char)
  | [] => [[]]
  | '-' :: '-' :: rest => [] :: pySplitDashDash rest
  | c :: rest =>
    match pySplitDashDash rest with
    | [] => [[c]]
    | h :: t => (c :: h) :: t

/-- Embedding of `date_start, date_end = args.date_range.split("--")`
(line 505): exactly two fields, else a `ValueError` (here `none`).
Python splits on the two-character separator; for the strings at play a
split on a single dash restricted to two fields is equivalent only for
well-formed inputs, so the two-character split is modelled directly. -/
def main_split_range (s : String) : Option (String × String) :=
  match pySplitDashDash s.toList with
  | [a, b] => some (String.mk a, String.mk b)
  | _ => none

/-- Ten consecutive work items (the timerange 01-2024 .. 10-2024), used
to exercise the partitioner at L = 10. -/
def tenItems : List (Int × Int) :=
  [(0, 2024), (1, 2024), (2, 2024), (3, 2024), (4, 2024),
   (5, 2024), (6, 2024), (7, 2024), (8, 2024), (9, 2024)]

/-- Render surface on which the zoom step always works but every
evaluation attempt fails. -/
def pmAllFail : PageModel :=
  ⟨fun _ => false, fun _ => none⟩

/-- Render surface on which already the zoom step raises, and the
evaluation would fail as well. -/
def pmZoomCrash : PageModel :=
  ⟨fun _ => true, fun _ => none⟩

/-- A 1 by 2 all-white image. -/
def whiteTall : Img :=
  ⟨1, 2, fun _ _ => (255, 255, 255)⟩

/-- A 1 by 1 all-white image. -/
def whiteSmall : Img :=
  ⟨1, 1, fun _ _ => (255, 255, 255)⟩

/-- Issue-download oracle on which every attempt of every issue raises. -/
def oracleAllFail : Int × Int → Nat → Except Err Unit :=
  fun _ _ => Except.error Err.issueErr

/-- Sign-in oracle on which every interactive sub-step completes. -/
def oracleSigninOk : SigninOracle :=
  ⟨true, false, true, true, true, true, true⟩

/-- Adjacent Python slices concatenate to the enclosing slice. -/
theorem pySlice_append {α : Type} (xs : List α) (a b c : Nat)
    (hab : a ≤ b) (hbc : b ≤ c) :
    pySlice xs a b ++ pySlice xs b c = pySlice xs a c := by
  unfold pySlice
  have h1 : c - a = (b - a) + (c - b) := by omega
  rw [h1, List.take_add]
  have h2 : (xs.drop a).drop (b - a) = xs.drop b := by
    rw [List.drop_drop]
    congr 1
    omega
  rw [h2]

/-- Length of an in-range Python slice. -/
theorem length_pySlice {α : Type} (xs : List α) (a b : Nat)
    (hb : b ≤ xs.length) :
    (pySlice xs a b).length = b - a := by
  simp [pySlice]
  omega

/-- Indexing a mapped range with a default. -/
theorem getD_range_map {β : Type} (f : Nat → β) (n i : Nat) (d : β) (h : i < n) :
    ((List.range n).map f).getD i d = f i := by
  simp [List.getD, List.getElem?_map, List.getElem?_range, h]

/-- A step-monotone function on naturals is monotone. -/
theorem mono_of_step (b : Nat → Nat) (hstep : ∀ i, b i ≤ b (i + 1)) :
    ∀ {i j : Nat}, i ≤ j → b i ≤ b j := by
  intro i j h
  induction h with
  | refl => exact Nat.le_refl _
  | step _ ih => exact Nat.le_trans ih (hstep _)

/-- Consecutive shard boundaries are nondecreasing. -/
theorem bnd_step (L n : Nat) : ∀ i, bnd L n i ≤ bnd L n (i + 1) := by
  intro i
  unfold bnd
  exact Nat.add_le_add
    (Nat.mul_le_mul_right _ (Nat.le_succ i))
    (min_le_min (Nat.le_succ i) (le_refl (L % n)))

/-- The first shard boundary is 0. -/
theorem bnd_zero (L n : Nat) : bnd L n 0 = 0 := by
  simp [bnd]

/-- The last shard boundary is the full length. -/
theorem bnd_last (L n : Nat) (hn : 1 ≤ n) : bnd L n n = L := by
  unfold bnd
  have hr : L % n < n := Nat.mod_lt _ hn
  rw [Nat.min_eq_right (Nat.le_of_lt hr)]
  exact Nat.div_add_mod L n

/-- Boundary gap below the remainder: `base + 1` items. -/
theorem bnd_size_lo (L n i : Nat) (h : i < L % n) :
    bnd L n (i + 1) - bnd L n i = L / n + 1 := by
  unfold bnd
  revert h
  generalize L % n = r
  generalize L / n = q
  intro h
  rw [Nat.succ_mul, Nat.min_eq_left (Nat.le_of_lt h), Nat.min_eq_left h]
  generalize i * q = a
  omega

/-- Boundary gap at or above the remainder: `base` items. -/
theorem bnd_size_hi (L n i : Nat) (h : L % n ≤ i) :
    bnd L n (i + 1) - bnd L n i = L / n := by
  unfold bnd
  revert h
  generalize L % n = r
  generalize L / n = q
  intro h
  rw [Nat.succ_mul, Nat.min_eq_right h, Nat.min_eq_right (Nat.le_trans h (Nat.le_succ i))]
  generalize i * q = a
  omega

/-- Slices at consecutive boundaries of a step-monotone boundary function
join to the slice over the whole boundary span. -/
theorem join_range_slices {α : Type} (xs : List α) (b : Nat → Nat)
    (hstep : ∀ i, b i ≤ b (i + 1)) :
    ∀ m, ((List.range m).map (fun i => pySlice xs (b i) (b (i + 1)))).flatten =
      pySlice xs (b 0) (b m) := by
  intro m
  induction m with
  | zero => simp [pySlice]
  | succ k ih =>
    rw [List.range_succ, List.map_append, List.flatten_append, ih]
    simp only [List.map_cons, List.map_nil, List.flatten_cons, List.flatten_nil, List.append_nil]
    exact pySlice_append xs (b 0) (b k) (b (k + 1)) (mono_of_step b hstep (Nat.zero_le k)) (hstep k)

/-- Shards of `partition` are slices at the `bnd` boundaries. -/
theorem partition_eq {α : Type} (xs : List α) (n : Nat) :
    partition xs n =
      (List.range n).map (fun i => pySlice xs (bnd xs.length n i) (bnd xs.length n (i + 1))) :=
  rfl

/-- Claim C3: for every sequence of length L and every worker count
N ≥ 1, `partition` produces exactly N contiguous shards (shard i being the
slice between boundaries bnd i and bnd i+1), whose concatenation in shard
order equals the original sequence, where the first L mod N shards have
size L div N + 1 and the remaining shards size L div N, all sizes differ
pairwise by at most 1, and the sizes sum to L. -/
theorem partition_spec {α : Type} (xs : List α) (n : Nat) (hn : 1 ≤ n) :
    (partition xs n).length = n ∧
    (partition xs n).flatten = xs ∧
    (∀ i, i < n → (partition xs n).getD i [] =
      pySlice xs (bnd xs.length n i) (bnd xs.length n (i + 1))) ∧
    (∀ i, i < xs.length % n → ((partition xs n).getD i []).length = xs.length / n + 1) ∧
    (∀ i, xs.length % n ≤ i → i < n → ((partition xs n).getD i []).length = xs.length / n) ∧
    (∀ i j, i < n → j < n →
      ((partition xs n).getD i []).length ≤ ((partition xs n).getD j []).length + 1) ∧
    ((partition xs n).map List.length).sum = xs.length := by
  have hstep := bnd_step xs.length n
  have hlen : (partition xs n).length = n := by
    rw [partition_eq]
    simp
  have hjoin : (partition xs n).flatten = xs := by
    rw [partition_eq, join_range_slices xs _ hstep n, bnd_zero, bnd_last xs.length n hn]
    simp [pySlice]
  have hgetD : ∀ i, i < n → (partition xs n).getD i [] =
      pySlice xs (bnd xs.length n i) (bnd xs.length n (i + 1)) := by
    intro i hi
    rw [partition_eq]
    exact getD_range_map _ n i [] hi
  have hsize : ∀ i, i < n → ((partition xs n).getD i []).length =
      bnd xs.length n (i + 1) - bnd xs.length n i := by
    intro i hi
    rw [hgetD i hi]
    refine length_pySlice xs _ _ ?_
    calc bnd xs.length n (i + 1) ≤ bnd xs.length n n :=
          mono_of_step _ hstep (by omega)
      _ = xs.length := bnd_last xs.length n hn
  have hlo : ∀ i, i < xs.length % n →
      ((partition xs n).getD i []).length = xs.length / n + 1 := by
    intro i hi
    have hin : i < n := Nat.lt_of_lt_of_le hi (Nat.le_of_lt (Nat.mod_lt _ hn))
    rw [hsize i hin, bnd_size_lo xs.length n i hi]
  have hhi : ∀ i, xs.length % n ≤ i → i < n →
      ((partition xs n).getD i []).length = xs.length / n := by
    intro i h1 h2
    rw [hsize i h2, bnd_size_hi xs.length n i h1]
  refine ⟨hlen, hjoin, hgetD, hlo, hhi, ?_, ?_⟩
  · intro i j hi hj
    rcases Nat.lt_or_ge i (xs.length % n) with hc | hc <;>
      rcases Nat.lt_or_ge j (xs.length % n) with hd | hd
    · rw [hlo i hc, hlo j hd]
      omega
    · rw [hlo i hc, hhi j hd hj]
    · rw [hhi i hc hi, hlo j hd]
      omega
    · rw [hhi i hc hi, hhi j hd hj]
      omega
  · rw [← List.length_flatten, hjoin]

/-- Witness for C3: at L = 10 and N = 3 the hypothesis holds and the
shards have the sizes 4, 3, 3 of the specification example. -/
theorem partition_spec_witness :
    1 ≤ 3 ∧ (partition tenItems 3).length = 3 ∧
    (partition tenItems 3).map List.length = [4, 3, 3] :=
  ⟨by decide, (partition_spec tenItems 3 (by decide)).1, by decide⟩

/-- Claim C1: the claim asserts that `timeRange` succeeds on every
chronologically ordered in-bounds pair, in particular on
(11-2024, 02-2025).  On the code it does not: both dates parse and pass
the bounds asserts, start precedes end chronologically, yet
`_get_timerange` fails its unconditional `month_start <= month_end`
assert (10 > 1) instead of returning the four-element range. -/
theorem timerange_rejects_valid_chronological_range :
    format_date ("11-2024") = Except.ok (2024, 10) ∧
    format_date ("02-2025") = Except.ok (2025, 1) ∧
    get_timerange ("11-2024") ("02-2025") = Except.error Err.assertErr := by
  decide

/-- Claim C2: the claim asserts that a spread pair with an Absent left
capture is skipped without raising.  On the code it is not: the
`if left_data is None` branch only logs, the following independent
branches then pass `None` into `Image.open`, which raises — for every
configuration, canvas id and right capture. -/
theorem left_absent_pair_raises (config : Config) (canvas_id : Nat)
    (right_data : Option Img) :
    download_article_pair_step config canvas_id none right_data =
      Except.error Err.decodeErr := by
  cases right_data <;> rfl

/-- Run of the capture loop on a surface where every attempt fails. -/
theorem fetch_canvas_go_fail (retry_wait : Nat) (pm : PageModel)
    (hzoom : ∀ i, pm.zoomFails i = false) (heval : ∀ i, pm.evalResult i = none) :
    ∀ k i, fetch_canvas_go retry_wait pm i k = (Except.ok none, failTrace retry_wait k) := by
  intro k
  induction k with
  | zero => intro i; rfl
  | succ m ih =>
    intro i
    simp [fetch_canvas_go, hzoom i, heval i, failTrace, ih (i + 1)]

/-- Each failed attempt contributes one evaluation event. -/
theorem failTrace_count_eval (retry_wait : Nat) :
    ∀ k, (failTrace retry_wait k).count CapEvent.eval = k := by
  intro k
  induction k with
  | zero => rfl
  | succ m ih => simp [failTrace, List.count_cons, ih]

/-- Each failed attempt contributes one sleep of the configured delay. -/
theorem failTrace_count_sleep (retry_wait : Nat) :
    ∀ k, (failTrace retry_wait k).count (CapEvent.sleep retry_wait) = k := by
  intro k
  induction k with
  | zero => rfl
  | succ m ih => simp [failTrace, List.count_cons, ih]

/-- Claim C4 counterexample: the claim asserts `capture` never raises,
whatever the underlying page operations do, returning Absent after all
`retries` attempts.  On `pmZoomCrash` the extraction would fail on every
attempt, yet `_zoom_page` — called outside the `try` — raises on the
first attempt and the exception propagates: the result is an error after
a single attempt, not `Absent` after `retries` attempts. -/
theorem capture_zoom_failure_raises :
    fetch_canvas_imagedata sampleConfig pmZoomCrash =
      (Except.error Err.zoomErr, [CapEvent.zoom]) := rfl

/-- Claim C4 (amended): when the zoom step never fails and the extraction
inside the `try` fails on every attempt, `capture` performs exactly
`retries` attempts, sleeps `retry_wait` between consecutive attempts, and
returns Absent without raising; a zoom-step failure, however, propagates
(see the counterexample). -/
theorem capture_exhausts_and_returns_absent (config : Config) (pm : PageModel)
    (hzoom : ∀ i, pm.zoomFails i = false) (heval : ∀ i, pm.evalResult i = none) :
    fetch_canvas_imagedata config pm =
      (Except.ok none, failTrace config.retry_wait config.retries) ∧
    (failTrace config.retry_wait config.retries).count CapEvent.eval = config.retries ∧
    (failTrace config.retry_wait config.retries).count (CapEvent.sleep config.retry_wait) =
      config.retries :=
  ⟨fetch_canvas_go_fail config.retry_wait pm hzoom heval config.retries 0,
   failTrace_count_eval config.retry_wait config.retries,
   failTrace_count_sleep config.retry_wait config.retries⟩

/-- Witness for C4: on the always-failing surface with the sample
configuration, capture returns Absent with the three-attempt trace. -/
theorem capture_exhausts_and_returns_absent_witness :
    fetch_canvas_imagedata sampleConfig pmAllFail =
      (Except.ok none, failTrace sampleConfig.retry_wait sampleConfig.retries) :=
  (capture_exhausts_and_returns_absent sampleConfig pmAllFail
    (fun _ => rfl) (fun _ => rfl)).1

/-- Pixel of a paste inside the pasted rectangle. -/
theorem paste_px_in (base im : Img) (x0 y0 x y : Nat)
    (h1 : x0 ≤ x) (h2 : x < x0 + im.width) (h3 : y0 ≤ y) (h4 : y < y0 + im.height) :
    (paste base im x0 y0).px x y = im.px (x - x0) (y - y0) := by
  show (if x0 ≤ x ∧ x < x0 + im.width ∧ y0 ≤ y ∧ y < y0 + im.height then
      im.px (x - x0) (y - y0) else base.px x y) = im.px (x - x0) (y - y0)
  exact if_pos ⟨h1, h2, h3, h4⟩

/-- Pixel of a paste outside the pasted rectangle. -/
theorem paste_px_out (base im : Img) (x0 y0 x y : Nat)
    (h : ¬(x0 ≤ x ∧ x < x0 + im.width ∧ y0 ≤ y ∧ y < y0 + im.height)) :
    (paste base im x0 y0).px x y = base.px x y := by
  show (if x0 ≤ x ∧ x < x0 + im.width ∧ y0 ≤ y ∧ y < y0 + im.height then
      im.px (x - x0) (y - y0) else base.px x y) = base.px x y
  exact if_neg h

/-- Claim C5 counterexample: the claim asserts the stitch canvas is white
before pasting, so that a height mismatch leaves a white band.  Stitching
a 1 by 2 white left image with a 1 by 1 white right image, the pixel at
(1, 1) — in the band under the shorter right image — is black (0, 0, 0),
the default fill of `Image.new("RGB", ...)`, not white. -/
theorem stitch_band_not_white :
    (combine_canvas_sidebyside sampleConfig (some whiteTall) (some whiteSmall)).map
      (fun i => Img.px i 1 1) = Except.ok ((0, 0, 0)) ∧
    ((0, 0, 0) : Nat × Nat × Nat) ≠ (255, 255, 255) := by
  decide

/-- Claim C5 (amended): for every pair with both captures present,
stitching emits exactly one page of width `left.width + right.width` and
height `max`, with the left image at (0, 0), the right image at
(left.width, 0), on an opaque RGB canvas whose background is the default
black fill (not white) prior to pasting — so mismatched heights leave a
black band under the shorter image — and progress advances by 2 units. -/
theorem combine_sidebyside_spec (config : Config) (l r : Img) (canvas_id : Nat) :
    (combine_canvas_sidebyside config (some l) (some r)).map Img.width =
      Except.ok (l.width + r.width) ∧
    (combine_canvas_sidebyside config (some l) (some r)).map Img.height =
      Except.ok (max l.height r.height) ∧
    (∀ x y, x < l.width → y < l.height →
      (combine_canvas_sidebyside config (some l) (some r)).map (fun i => Img.px i x y) =
        Except.ok (l.px x y)) ∧
    (∀ x y, x < r.width → y < r.height →
      (combine_canvas_sidebyside config (some l) (some r)).map
        (fun i => Img.px i (l.width + x) y) = Except.ok (r.px x y)) ∧
    (∀ x y, l.width ≤ x → x < l.width + r.width → r.height ≤ y →
      (combine_canvas_sidebyside config (some l) (some r)).map (fun i => Img.px i x y) =
        Except.ok ((0, 0, 0))) ∧
    (∀ x y, x < l.width → l.height ≤ y →
      (combine_canvas_sidebyside config (some l) (some r)).map (fun i => Img.px i x y) =
        Except.ok ((0, 0, 0))) ∧
    download_article_pair_step config canvas_id (some l) (some r) =
      Except.ok ([paste (paste (imageNew (l.width + r.width) (max l.height r.height)) l 0 0)
        r l.width 0], 2, []) := by
  refine ⟨rfl, rfl, ?_, ?_, ?_, ?_, rfl⟩
  · intro x y hx hy
    show Except.ok ((paste (paste (imageNew (l.width + r.width) (max l.height r.height))
      l 0 0) r l.width 0).px x y) = Except.ok (l.px x y)
    rw [paste_px_out _ _ _ _ _ _ (by omega),
        paste_px_in _ _ _ _ _ _ (by omega) (by omega) (by omega) (by omega)]
    rfl
  · intro x y hx hy
    show Except.ok ((paste (paste (imageNew (l.width + r.width) (max l.height r.height))
      l 0 0) r l.width 0).px (l.width + x) y) = Except.ok (r.px x y)
    rw [paste_px_in _ _ _ _ _ _ (by omega) (by omega) (by omega) (by omega)]
    have hxx : l.width + x - l.width = x := by omega
    rw [hxx]
    rfl
  · intro x y hx1 hx2 hy
    show Except.ok ((paste (paste (imageNew (l.width + r.width) (max l.height r.height))
      l 0 0) r l.width 0).px x y) = Except.ok ((0, 0, 0))
    rw [paste_px_out _ _ _ _ _ _ (by omega), paste_px_out _ _ _ _ _ _ (by omega)]
    rfl
  · intro x y hx hy
    show Except.ok ((paste (paste (imageNew (l.width + r.width) (max l.height r.height))
      l 0 0) r l.width 0).px x y) = Except.ok ((0, 0, 0))
    rw [paste_px_out _ _ _ _ _ _ (by omega), paste_px_out _ _ _ _ _ _ (by omega)]
    rfl

/-- Exhausting the attempt loop when every invocation raises. -/
theorem retry_go_fail (attempt : Nat → Except Err Unit)
    (hfail : ∀ i, ∃ e, attempt i = Except.error e) :
    ∀ k used, retry_go attempt used k = (false, used + k) := by
  intro k
  induction k with
  | zero => intro used; rfl
  | succ m ih =>
    intro used
    obtain ⟨e, he⟩ := hfail used
    simp [retry_go, he, ih (used + 1)]
    omega

/-- Claim C6: an issue whose download raises on every attempt is invoked
exactly `retries` times, the wrapper returns (it cannot raise: the result
is a plain value), the skip warning is recorded, and the shard loop still
yields one result entry per work item — the failing issue does not abort
the remaining work items. -/
theorem issue_retry_exhausts_and_batch_continues (retries : Nat)
    (oracle : Int × Int → Nat → Except Err Unit) (timerange : List (Int × Int))
    (it : Int × Int) (hmem : it ∈ timerange)
    (hfail : ∀ i, ∃ e, oracle it i = Except.error e) :
    download_articel_retry retries it.2 it.1 (oracle it) =
      (false, retries, [skipIssueMsg it.2 it.1]) ∧
    (it, false, retries, [skipIssueMsg it.2 it.1]) ∈
      fetch_natgeo_range retries oracle timerange ∧
    (fetch_natgeo_range retries oracle timerange).length = timerange.length := by
  have h1 : download_articel_retry retries it.2 it.1 (oracle it) =
      (false, retries, [skipIssueMsg it.2 it.1]) := by
    have hr := retry_go_fail (oracle it) hfail retries 0
    simp [download_articel_retry, hr]
  refine ⟨h1, ?_, by simp [fetch_natgeo_range]⟩
  have h2 := List.mem_map_of_mem
    (fun x => (x, download_articel_retry retries x.2 x.1 (oracle x))) hmem
  simpa [fetch_natgeo_range, h1] using h2

/-- Witness for C6: with two work items and an oracle on which every
attempt raises, the first item is retried twice then skipped. -/
theorem issue_retry_exhausts_and_batch_continues_witness :
    download_articel_retry 2 ((0 : Int), (2024 : Int)).2 ((0 : Int), (2024 : Int)).1
      (oracleAllFail ((0 : Int), (2024 : Int))) =
      (false, 2, [skipIssueMsg ((0 : Int), (2024 : Int)).2 ((0 : Int), (2024 : Int)).1]) :=
  (issue_retry_exhausts_and_batch_continues 2 oracleAllFail tenItems
    ((0 : Int), (2024 : Int)) (by decide) (fun _ => ⟨Err.issueErr, rfl⟩)).1

/-- Claim C7 counterexample: the claim asserts that an out-of-bounds
month fails before any browsing work begins.  On the code, the run for
month 13 does end with the validation error, but the browser launch,
cookie load and interactive sign-in have already happened before
`_get_timerange` is ever called. -/
theorem browsing_precedes_validation_counterexample :
    fetch_natgeo_run ("13-2024") ("13-2024") 2 =
      ([RunEvent.browserLaunch, RunEvent.cookieLoad, RunEvent.signinFlow],
        some Err.assertErr) ∧
    RunEvent.browserLaunch ∈ (fetch_natgeo_run ("13-2024") ("13-2024") 2).1 := by
  decide

/-- Claim C7 (amended): a malformed or out-of-bounds date range makes the
run fail with the validation error before any issue-download work — no
worker is spawned and no issue is navigated — but only after the initial
sign-in browsing pass (browser launch, cookie load, sign-in flow) has
already run. -/
theorem validation_stops_before_workers (date_start date_end : String)
    (n_workers : Nat) (e : Err) (h : get_timerange date_start date_end = Except.error e) :
    fetch_natgeo_run date_start date_end n_workers =
      ([RunEvent.browserLaunch, RunEvent.cookieLoad, RunEvent.signinFlow], some e) := by
  simp [fetch_natgeo_run, h]

/-- Witness for C7: the out-of-bounds month 13 stops the run with the
assertion error and no worker events. -/
theorem validation_stops_before_workers_witness :
    fetch_natgeo_run ("13-2024") ("13-2024") 1 =
      ([RunEvent.browserLaunch, RunEvent.cookieLoad, RunEvent.signinFlow],
        some Err.assertErr) :=
  validation_stops_before_workers ("13-2024") ("13-2024") 1 Err.assertErr (by decide)

/-- Claim C8: a cover capture that comes back Absent is passed unguarded
into `__add_to_canvas`, whose image decode raises, so the whole-issue
download fails for every configuration and every spread stream —
triggering the issue-level retry — rather than being skipped. -/
theorem cover_absent_download_fails (config : Config)
    (spreads : List (Nat × Option Img × Option Img)) :
    download_article config none spreads = Except.error Err.decodeErr := rfl

/-- Claim C9: the claim asserts that omitting `--date-range` downloads
the latest single issue.  On the code, argparse substitutes the fixed
default `01-2024--02-2025`, which splits into the two dates 01-2024 and
02-2025 and yields a range of 14 work items, not a single latest issue. -/
theorem default_range_is_fourteen_issues :
    resolve_date_range none = date_range_default ∧
    main_split_range date_range_default = some ("01-2024", "02-2025") ∧
    (get_timerange ("01-2024") ("02-2025")).map List.length = Except.ok 14 := by
  decide

/-- Claim C10: the sign-in flow's printed output never depends on the
secret's value, only (through the masked star list) on its length: two
configurations that agree everywhere except the password, with passwords
of equal length, produce identical logs on every render-surface
behaviour. -/
theorem signin_logs_independent_of_secret (o : SigninOracle) (config : Config)
    (p1 p2 : String) (h : p1.length = p2.length) :
    signin_save_cookies_logs o { config with password := p1 } =
      signin_save_cookies_logs o { config with password := p2 } := by
  simp [signin_save_cookies_logs, signin_fill_email_logs, signin_fill_password_logs,
    signin_fill_otp_logs, h]

/-- Witness for C10: two distinct equal-length passwords yield identical
sign-in logs on the all-successful oracle. -/
theorem signin_logs_independent_of_secret_witness :
    signin_save_cookies_logs oracleSigninOk { sampleConfig with password := ("abc") } =
      signin_save_cookies_logs oracleSigninOk { sampleConfig with password := ("xyz") } :=
  signin_logs_independent_of_secret oracleSigninOk sampleConfig ("abc") ("xyz") (by decide)

end NatGeo
